import Mathlib

/-!
Verification of the osm-rs client library (Overpass + Nominatim OpenStreetMap
queries) against its natural-language specification.

The Rust source is shallowly embedded:
* `f64` arithmetic (trigonometry, square roots) is modelled over `ℝ`;
* `f64` values that are only ever rendered to text are modelled by a type
  parameter `α` together with an explicit formatting function `α → String`,
  standing for Rust's `Display` for `f64`;
* JSON is an inductive type with numbers as `ℚ` (exact decimals), and the
  response decoders return `Except String _` as fallible code;
* `HashMap` parameter maps are modelled as association lists in insertion
  order (the keys inserted are pairwise distinct, so no entry is shadowed).
-/

namespace OsmRs

/-- HTTP method of an outbound request. -/
inductive Method where
  | get
  | post
deriving Repr, DecidableEq

/-- The observable content of one outbound HTTP request, as assembled by the
reqwest calls in the source: method, URL, the `User-Agent` header configured
on the client (`none` when the client is built without one — reqwest sends no
`User-Agent` header by default), query parameters, and body. -/
structure HttpRequest where
  method : Method
  url : String
  userAgent : Option String
  queryParams : List (String × String)
  body : Option String

/-- `APP_USER_AGENT` (nominatim.rs line 59):
`concat!(env!("CARGO_PKG_NAME"), "/", env!("CARGO_PKG_VERSION"))`. The two
`env!` values come from Cargo.toml, which is not under src/, so the constant
is parameterized by them; the spec describes it as library name + version. -/
def APP_USER_AGENT (cargoPkgName cargoPkgVersion : String) : String :=
  cargoPkgName ++ "/" ++ cargoPkgVersion

/-! ## Overpass module (src/overpass.rs) -/

namespace Overpass

/-- Query configuration (`overpass::Config`): url, timeout (u8), tag key/value. -/
structure Config where
  url : String
  timeout : Nat
  key : String
  val : String

/-- `overpass::BoundingBox`: four `f64` boundaries, here over a parameter `α`
so the same structure serves the real-valued geodetic model (`α = ℝ`), the
rendering model (`α = String` via a formatting function) and the decoded
model (`α = ℚ`). -/
structure BoundingBox (α : Type) where
  xmin : α
  ymin : α
  xmax : α
  ymax : α
deriving Repr, DecidableEq

/-- The query body built by `BoundingBox::search` (overpass.rs line 140):
`format!("[out:json];node[\"{}\"=\"{}\"]({},{},{},{});out center;",
config.key, config.val, self.xmin, self.ymin, self.xmax, self.ymax)`.
`fmt` stands for Rust's `Display` rendering of `f64`. -/
def searchQuery {α : Type} (fmt : α → String) (config : Config) (b : BoundingBox α) : String :=
  "[out:json];node[\"" ++ config.key ++ "\"=\"" ++ config.val ++ "\"]("
    ++ fmt b.xmin ++ "," ++ fmt b.ymin ++ "," ++ fmt b.xmax ++ "," ++ fmt b.ymax
    ++ ");out center;"

/-- Modelled from the spec: the query body as the spec describes it, with the
four fields substituted in south,west,north,east order, i.e.
`ymin, xmin, ymax, xmax` — for comparison with `searchQuery`, which embeds
the actual source. -/
def searchQuerySpec {α : Type} (fmt : α → String) (config : Config) (b : BoundingBox α) : String :=
  "[out:json];node[\"" ++ config.key ++ "\"=\"" ++ config.val ++ "\"]("
    ++ fmt b.ymin ++ "," ++ fmt b.xmin ++ "," ++ fmt b.ymax ++ "," ++ fmt b.xmax
    ++ ");out center;"

/-- Major semiaxis of the WGS-84 geoidal reference (overpass.rs line 36). -/
noncomputable def WGS84A : ℝ := 6378137.0

/-- Minor semiaxis of the WGS-84 geoidal reference (overpass.rs line 39). -/
noncomputable def WGS84B : ℝ := 6356752.3

/-- `wgs84_earth_radius` (overpass.rs lines 89-95), with `f64` arithmetic
modelled over `ℝ`:
`an = a*a*cos lat`, `bn = b*b*sin lat`, `ad = a*cos lat`, `bd = b*sin lat`,
result `sqrt ((an*an + bn*bn) / (ad*ad + bd*bd))`. -/
noncomputable def wgs84_earth_radius (lat : ℝ) : ℝ :=
  let an := WGS84A * WGS84A * Real.cos lat
  let bn := WGS84B * WGS84B * Real.sin lat
  let ad := WGS84A * Real.cos lat
  let bd := WGS84B * Real.sin lat
  Real.sqrt ((an * an + bn * bn) / (ad * ad + bd * bd))

/-- `BoundingBox::from_point` (overpass.rs lines 99-112), over `ℝ`. Note the
source returns a plain `Self` — there is no error path and no input check. -/
noncomputable def BoundingBox.from_point (lat lon dkm : ℝ) : BoundingBox ℝ :=
  let dm := dkm * 1000.0
  let erad := wgs84_earth_radius lat
  let prad := erad * Real.cos lat
  let dx := dm / prad
  let dy := dm / erad
  { xmin := lon - dx, ymin := lat - dy, xmax := lon + dx, ymax := lat + dy }

/-- The request issued by `BoundingBox::search` (overpass.rs lines 145-152):
`Client::new()` — built without `.user_agent(..)`, so no `User-Agent` header
is configured — then `.post(&config.url).body(query)`. -/
def BoundingBox.searchRequest {α : Type} (fmt : α → String) (config : Config)
    (b : BoundingBox α) : HttpRequest :=
  { method := Method.post
    url := config.url
    userAgent := none
    queryParams := []
    body := some (searchQuery fmt config b) }

end Overpass

/-! ## Nominatim module (src/nominatim.rs) -/

namespace Nominatim

/-- Query configuration (`nominatim::Config`). -/
structure Config where
  url : String
  timeout : Nat

/-- `nominatim::Geocode`: a free-text query plus six optional structured
address fields. -/
structure Geocode where
  q : Option String
  street : Option String
  city : Option String
  county : Option String
  state : Option String
  country : Option String
  postalcode : Option String
deriving Repr, DecidableEq

/-- `Geocode::new`: free-text constructor, all structured fields unset. -/
def Geocode.new (s : String) : Geocode :=
  { q := some s, street := none, city := none, county := none, state := none,
    country := none, postalcode := none }

/-- One conditional `params.insert(key, v)` on an optional field. -/
def optEntry (k : String) : Option String → List (String × String)
  | some v => [(k, v)]
  | none => []

/-- `Geocode::to_params` (nominatim.rs lines 155-180): if `q` is set the map
is only `q`; otherwise each populated structured field is inserted under its
field name. The `HashMap` is modelled as the association list of inserted
entries (all keys distinct). -/
def Geocode.to_params (g : Geocode) : List (String × String) :=
  match g.q with
  | some q => [("q", q)]
  | none =>
      optEntry "street" g.street ++ optEntry "city" g.city
        ++ optEntry "county" g.county ++ optEntry "state" g.state
        ++ optEntry "country" g.country ++ optEntry "postalcode" g.postalcode

/-- `nominatim::ReverseGeocode`: a mandatory lon/lat pair (field order as in
the source), over the `f64`-stand-in parameter `α`. -/
structure ReverseGeocode (α : Type) where
  lon : α
  lat : α

/-- The request issued by `Geocode::search` (nominatim.rs lines 143-149):
`Client::builder().user_agent(APP_USER_AGENT)`, then a GET on
`format!("{}?format=json", config.url)` with `self.to_params()` as query. -/
def Geocode.searchRequest (cargoPkgName cargoPkgVersion : String) (config : Config)
    (g : Geocode) : HttpRequest :=
  { method := Method.get
    url := config.url ++ "?format=json"
    userAgent := some (APP_USER_AGENT cargoPkgName cargoPkgVersion)
    queryParams := g.to_params
    body := none }

/-- The request issued by `ReverseGeocode::search` (nominatim.rs lines
204-214): `Client::builder().user_agent(APP_USER_AGENT)`, then a GET on
`format!("{}?format=json", config.url)` with `lat` and `lon` stringified
(`fmt` stands for `f64::to_string`). -/
def ReverseGeocode.searchRequest {α : Type} (cargoPkgName cargoPkgVersion : String)
    (fmt : α → String) (config : Config) (r : ReverseGeocode α) : HttpRequest :=
  { method := Method.get
    url := config.url ++ "?format=json"
    userAgent := some (APP_USER_AGENT cargoPkgName cargoPkgVersion)
    queryParams := [("lat", fmt r.lat), ("lon", fmt r.lon)]
    body := none }

end Nominatim

/-! ## JSON and response decoding

The source decodes responses with serde; the numeric fields annotated
`#[serde(deserialize_with = "deserialize_number_from_string")]` accept a JSON
number or a numeric string. JSON numbers and parsed numeric strings are
modelled as exact decimals `mantissa / 10 ^ shift` (the `f64` conversion is
modelled as exact). -/

/-- An exact decimal number: the value `mantissa / 10 ^ shift`. -/
structure Decimal where
  mantissa : ℤ
  shift : ℕ
deriving Repr, DecidableEq

/-- The rational value of a `Decimal`. -/
def Decimal.toRat (d : Decimal) : ℚ :=
  (d.mantissa : ℚ) / 10 ^ d.shift

/-- A JSON value; objects keep their fields as an association list. -/
inductive Json where
  | null
  | bool (b : Bool)
  | num (d : Decimal)
  | str (s : String)
  | arr (elems : List Json)
  | obj (fields : List (String × Json))

/-- Digit run to a natural number, `none` on a non-digit. -/
def parseDigitsAux : List Char → ℕ → Option ℕ
  | [], acc => some acc
  | c :: cs, acc =>
      if c.isDigit then parseDigitsAux cs (10 * acc + (c.toNat - 48)) else none

/-- A non-empty run of decimal digits. -/
def parseNatDigits (cs : List Char) : Option ℕ :=
  if cs.isEmpty then none else parseDigitsAux cs 0

/-- Unsigned decimal literal: digits, optionally split by one point; at
least one digit overall. -/
def parseUnsignedDecimal (cs : List Char) : Option Decimal :=
  match cs.splitOn '.' with
  | [ip] => (parseNatDigits ip).map fun n => ⟨(n : ℤ), 0⟩
  | [ip, fp] =>
      if ip.isEmpty && fp.isEmpty then none
      else
        match (if ip.isEmpty then some 0 else parseNatDigits ip),
              (if fp.isEmpty then some 0 else parseNatDigits fp) with
        | some i, some f => some ⟨(i : ℤ) * 10 ^ fp.length + (f : ℤ), fp.length⟩
        | _, _ => none
  | _ => none

/-- Modelled from the spec: parsing "a string containing a valid decimal
number" (the `str::parse::<f64>` step inside serde_aux's helper, a dependency
not under src/): optional sign followed by an unsigned decimal literal. -/
def parseDecimal (s : String) : Option Decimal :=
  match s.data with
  | [] => none
  | '-' :: rest => (parseUnsignedDecimal rest).map fun d => ⟨-d.mantissa, d.shift⟩
  | '+' :: rest => parseUnsignedDecimal rest
  | cs => parseUnsignedDecimal cs

/-- Modelled from the spec: serde_aux's `deserialize_number_from_string`
(a dependency, not under src/) — accepts a JSON number as-is, or a string
that parses as a decimal number; anything else is a decode error. -/
def deserialize_number_from_string : Json → Except String Decimal
  | Json.num d => Except.ok d
  | Json.str s =>
      match parseDecimal s with
      | some d => Except.ok d
      | none => Except.error "failed to parse string as a number"
  | _ => Except.error "expected a number or a numeric string"

/-- An unsigned-integer field (serde `u64`): a JSON number with no
fractional part. -/
def uintField (fs : List (String × Json)) (k : String) : Except String ℕ :=
  match fs.lookup k with
  | some (Json.num d) =>
      if d.shift = 0 ∧ 0 ≤ d.mantissa then Except.ok d.mantissa.toNat
      else Except.error ("invalid integer for field " ++ k)
  | some _ => Except.error ("invalid type for field " ++ k)
  | none => Except.error ("missing field " ++ k)

/-- A mandatory string field. -/
def strField (fs : List (String × Json)) (k : String) : Except String String :=
  match fs.lookup k with
  | some (Json.str s) => Except.ok s
  | some _ => Except.error ("invalid type for field " ++ k)
  | none => Except.error ("missing field " ++ k)

/-- An `Option<String>` field (serde): missing or null is `none`. -/
def optStrField (fs : List (String × Json)) (k : String) : Except String (Option String) :=
  match fs.lookup k with
  | some (Json.str s) => Except.ok (some s)
  | some Json.null => Except.ok none
  | some _ => Except.error ("invalid type for field " ++ k)
  | none => Except.ok none

/-- A field decoded through `deserialize_number_from_string` (the
`#[serde(deserialize_with = ...)]` annotation in the source). -/
def numField (fs : List (String × Json)) (k : String) : Except String Decimal :=
  match fs.lookup k with
  | some j => deserialize_number_from_string j
  | none => Except.error ("missing field " ++ k)

namespace Overpass

/-- The serde decoder derived for `BoundingBox` (overpass.rs lines 51-61):
all four fields go through `deserialize_number_from_string`. A derived serde
struct decoder accepts a map keyed by field name or a sequence giving the
fields in declaration order. -/
def decodeBoundingBox : Json → Except String (BoundingBox Decimal)
  | Json.obj fs => do
      let xmin ← numField fs "xmin"
      let ymin ← numField fs "ymin"
      let xmax ← numField fs "xmax"
      let ymax ← numField fs "ymax"
      Except.ok { xmin, ymin, xmax, ymax }
  | Json.arr [a, b, c, d] => do
      let xmin ← deserialize_number_from_string a
      let ymin ← deserialize_number_from_string b
      let xmax ← deserialize_number_from_string c
      let ymax ← deserialize_number_from_string d
      Except.ok { xmin, ymin, xmax, ymax }
  | _ => Except.error "invalid type for BoundingBox"

end Overpass

namespace Nominatim

/-- `nominatim::GeocodeResponse` (nominatim.rs lines 88-108), with the
`f64` fields as exact decimals and the `u64` fields as `ℕ`. -/
structure GeocodeResponse where
  place_id : ℕ
  license : Option String
  osm_type : String
  osm_id : ℕ
  lat : Decimal
  lon : Decimal
  «class» : String
  place_type : String
  place_rank : ℕ
  importance : Decimal
  addresstype : String
  name : String
  display_name : String
  boundingbox : Overpass.BoundingBox Decimal
deriving Repr, DecidableEq

/-- The serde decoder derived for `GeocodeResponse`: `lat`, `lon` and
`importance` go through `deserialize_number_from_string`; `place_type` is
read from the JSON key `type` (the `#[serde(rename = "type")]` annotation);
`license` is optional; the rest are plainly typed. -/
def decodeGeocodeResponse : Json → Except String GeocodeResponse
  | Json.obj fs => do
      let place_id ← uintField fs "place_id"
      let license ← optStrField fs "license"
      let osm_type ← strField fs "osm_type"
      let osm_id ← uintField fs "osm_id"
      let lat ← numField fs "lat"
      let lon ← numField fs "lon"
      let cls ← strField fs "class"
      let place_type ← strField fs "type"
      let place_rank ← uintField fs "place_rank"
      let importance ← numField fs "importance"
      let addresstype ← strField fs "addresstype"
      let name ← strField fs "name"
      let display_name ← strField fs "display_name"
      let bbj ←
        match fs.lookup "boundingbox" with
        | some j => Except.ok j
        | none => Except.error "missing field boundingbox"
      let boundingbox ← Overpass.decodeBoundingBox bbj
      Except.ok { place_id, license, osm_type, osm_id, lat, lon,
                  «class» := cls, place_type, place_rank, importance,
                  addresstype, name, display_name, boundingbox }
  | _ => Except.error "invalid type: expected an object"

end Nominatim

/-- A Nominatim-style response object with the `lat` and `importance` values
left as parameters, so decoding can be examined as a function of those two
JSON values; the remaining fields are representative concrete values, with
`boundingbox` in the array-of-numeric-strings form Nominatim sends. -/
def exampleGeocodeJson (latj impj : Json) : Json :=
  Json.obj
    [("place_id", Json.num ⟨132956033, 0⟩),
     ("license", Json.str "Data ODbL"),
     ("osm_type", Json.str "relation"),
     ("osm_id", Json.num ⟨2315704, 0⟩),
     ("lat", latj),
     ("lon", Json.str "-71.060511"),
     ("class", Json.str "boundary"),
     ("type", Json.str "administrative"),
     ("place_rank", Json.num ⟨16, 0⟩),
     ("importance", impj),
     ("addresstype", Json.str "city"),
     ("name", Json.str "Boston"),
     ("display_name", Json.str "Boston, Suffolk County, Massachusetts, United States"),
     ("boundingbox", Json.arr [Json.str "42.2279112", Json.str "42.3969775",
        Json.str "-71.191249", Json.str "-71.0298595"])]

/-- A BoundingBox object with the `xmin` value left as a parameter. -/
def exampleBoundingBoxJson (j : Json) : Json :=
  Json.obj [("xmin", j), ("ymin", Json.num ⟨0, 0⟩),
            ("xmax", Json.num ⟨1, 0⟩), ("ymax", Json.num ⟨2, 0⟩)]

/-! ## Theorems -/

/-- Helper: membership in one conditional insert. -/
theorem mem_optEntry (k k' v : String) (o : Option String) :
    (k, v) ∈ Nominatim.optEntry k' o ↔ k = k' ∧ o = some v := by
  cases o with
  | none => simp [Nominatim.optEntry]
  | some a =>
      simp only [Nominatim.optEntry, List.mem_singleton, Prod.mk.injEq, Option.some.injEq]
      tauto

/-- C1 (amended): the query body built by `BoundingBox::search` substitutes
the box fields in declaration order `xmin, ymin, xmax, ymax` — equivalently,
it equals the spec's south,west,north,east rendering applied to the box with
its x- and y-fields transposed; on the spec's example box (whose `f64`
values display as `51.3`, `-0.77`, `51.82`, `0.53`) the rendered body is
`[out:json];node["amenity"="cafe"](51.3,-0.77,51.82,0.53);out center;`. -/
theorem searchQuery_declaration_order :
    (∀ (α : Type) (fmt : α → String) (c : Overpass.Config) (b : Overpass.BoundingBox α),
      Overpass.searchQuery fmt c b =
        "[out:json];node[\"" ++ c.key ++ "\"=\"" ++ c.val ++ "\"](" ++ fmt b.xmin ++ ","
          ++ fmt b.ymin ++ "," ++ fmt b.xmax ++ "," ++ fmt b.ymax ++ ");out center;")
  ∧ (∀ (α : Type) (fmt : α → String) (c : Overpass.Config) (b : Overpass.BoundingBox α),
      Overpass.searchQuery fmt c b =
        Overpass.searchQuerySpec fmt c ⟨b.ymin, b.xmin, b.ymax, b.xmax⟩)
  ∧ Overpass.searchQuery (fun s => s)
      ⟨"https://overpass-api.de/api/interpreter", 25, "amenity", "cafe"⟩
      ⟨"51.3", "-0.77", "51.82", "0.53"⟩ =
      "[out:json];node[\"amenity\"=\"cafe\"](51.3,-0.77,51.82,0.53);out center;" :=
  ⟨fun _ _ _ _ => rfl, fun _ _ _ _ => rfl, rfl⟩

/-- C1 (counterexample): on the spec's own example inputs — even granting the
spec its rendering of the digits — the body built by the source does not
equal the spec's claimed string, because the fields are substituted in
declaration order, not south,west,north,east order. -/
theorem searchQuery_not_spec_order :
    Overpass.searchQuery (fun s => s)
      ⟨"https://overpass-api.de/api/interpreter", 25, "amenity", "cafe"⟩
      ⟨"51.30", "-0.77", "51.82", "0.53"⟩ ≠
      "[out:json];node[\"amenity\"=\"cafe\"](-0.77,51.30,0.53,51.82);out center;" := by
  decide

/-- C2 (confirmed): `Geocode::to_params` precedence — when `q` is set the map
is exactly the single entry `q`; when `q` is unset, an entry `(k, v)` is in
the map exactly when `k` is one of the six structured field names and that
field is set to `v` (so unset fields are absent); with nothing set the map
is empty. -/
theorem to_params_precedence (g : Nominatim.Geocode) :
    (∀ q, g.q = some q → g.to_params = [("q", q)])
  ∧ (g.q = none → ∀ k v, (k, v) ∈ g.to_params ↔
      (k = "street" ∧ g.street = some v) ∨ (k = "city" ∧ g.city = some v)
        ∨ (k = "county" ∧ g.county = some v) ∨ (k = "state" ∧ g.state = some v)
        ∨ (k = "country" ∧ g.country = some v) ∨ (k = "postalcode" ∧ g.postalcode = some v))
  ∧ (g.q = none → g.street = none → g.city = none → g.county = none →
      g.state = none → g.country = none → g.postalcode = none → g.to_params = []) := by
  refine ⟨fun q hq => by simp [Nominatim.Geocode.to_params, hq], fun hq k v => ?_,
    fun hq h1 h2 h3 h4 h5 h6 => by
      simp [Nominatim.Geocode.to_params, hq, h1, h2, h3, h4, h5, h6, Nominatim.optEntry]⟩
  simp only [Nominatim.Geocode.to_params, hq, List.mem_append, mem_optEntry]
  tauto

/-- C2 witness: on `Geocode {q: none, city: some "Boston", state: some "MA"}`
the hypothesis `q = none` holds and the computed map is exactly the two
entries `city` and `state`, with `("city", "Boston")` a member by the
theorem's characterization. -/
theorem to_params_precedence_witness :
    (Nominatim.Geocode.q ⟨none, none, some "Boston", none, some "MA", none, none⟩ = none)
  ∧ Nominatim.Geocode.to_params ⟨none, none, some "Boston", none, some "MA", none, none⟩
      = [("city", "Boston"), ("state", "MA")]
  ∧ ("city", "Boston") ∈
      Nominatim.Geocode.to_params ⟨none, none, some "Boston", none, some "MA", none, none⟩ :=
  ⟨rfl, rfl,
    ((to_params_precedence ⟨none, none, some "Boston", none, some "MA", none, none⟩).2.1
      rfl "city" "Boston").mpr (Or.inr (Or.inl ⟨rfl, rfl⟩))⟩

/-- C10 (confirmed): `Geocode::new s` sets `q = some s` and leaves all six
structured fields unset, and its parameter map is exactly `[("q", s)]`. -/
theorem geocode_new_q_only (s : String) :
    (Nominatim.Geocode.new s).q = some s
  ∧ (Nominatim.Geocode.new s).street = none
  ∧ (Nominatim.Geocode.new s).city = none
  ∧ (Nominatim.Geocode.new s).county = none
  ∧ (Nominatim.Geocode.new s).state = none
  ∧ (Nominatim.Geocode.new s).country = none
  ∧ (Nominatim.Geocode.new s).postalcode = none
  ∧ (Nominatim.Geocode.new s).to_params = [("q", s)] :=
  ⟨rfl, rfl, rfl, rfl, rfl, rfl, rfl, rfl⟩

/-- C5 (amended): the two Nominatim requests (`Geocode::search`,
`ReverseGeocode::search`) carry the constant identifying user-agent
(package name + "/" + package version); the Overpass request
(`BoundingBox::search`) is built from `Client::new()` with no user-agent
configured, so it carries none. -/
theorem user_agent_coverage (n v : String) (α : Type) (fmt : α → String)
    (co : Overpass.Config) (cn : Nominatim.Config) (b : Overpass.BoundingBox α)
    (g : Nominatim.Geocode) (r : Nominatim.ReverseGeocode α) :
    (Nominatim.Geocode.searchRequest n v cn g).userAgent = some (APP_USER_AGENT n v)
  ∧ (Nominatim.ReverseGeocode.searchRequest n v fmt cn r).userAgent = some (APP_USER_AGENT n v)
  ∧ (Overpass.BoundingBox.searchRequest fmt co b).userAgent = none :=
  ⟨rfl, rfl, rfl⟩

/-- C5 (counterexample): the concrete Overpass request carries no user-agent
header at all, so it does not carry the identifying one. -/
theorem overpass_request_lacks_user_agent :
    (Overpass.BoundingBox.searchRequest (fun s => s)
      ⟨"https://overpass-api.de/api/interpreter", 25, "amenity", "cafe"⟩
      ⟨"51.3", "-0.77", "51.82", "0.53"⟩).userAgent = none :=
  rfl

/-- C3 (confirmed): `wgs84_earth_radius lat` equals the WGS-84 formula
`sqrt((a² cos φ)² + (b² sin φ)²) / sqrt((a cos φ)² + (b sin φ)²)` with
`a = 6378137.0`, `b = 6356752.3` (the source computes the quotient under one
square root; over `ℝ` the two agree). -/
theorem wgs84_earth_radius_eq_spec_formula (lat : ℝ) :
    Overpass.wgs84_earth_radius lat =
      Real.sqrt (((6378137 : ℝ) ^ 2 * Real.cos lat) ^ 2 + ((6356752.3 : ℝ) ^ 2 * Real.sin lat) ^ 2)
        / Real.sqrt (((6378137 : ℝ) * Real.cos lat) ^ 2 + ((6356752.3 : ℝ) * Real.sin lat) ^ 2) := by
  have h : Overpass.wgs84_earth_radius lat =
      Real.sqrt ((Overpass.WGS84A * Overpass.WGS84A * Real.cos lat
          * (Overpass.WGS84A * Overpass.WGS84A * Real.cos lat)
        + Overpass.WGS84B * Overpass.WGS84B * Real.sin lat
          * (Overpass.WGS84B * Overpass.WGS84B * Real.sin lat))
        / (Overpass.WGS84A * Real.cos lat * (Overpass.WGS84A * Real.cos lat)
        + Overpass.WGS84B * Real.sin lat * (Overpass.WGS84B * Real.sin lat))) := rfl
  rw [h, Real.sqrt_div (add_nonneg (mul_self_nonneg _) (mul_self_nonneg _))]
  congr 1
  · congr 1
    simp only [Overpass.WGS84A, Overpass.WGS84B]
    ring
  · congr 1
    simp only [Overpass.WGS84A, Overpass.WGS84B]
    ring

/-- C4 (confirmed): `BoundingBox::from_point lat lon dkm` computes
`dm = dkm * 1000`, `erad = wgs84_earth_radius lat`, `prad = erad * cos lat`,
`dx = dm / prad`, `dy = dm / erad`, and returns
`(lon - dx, lat - dy, lon + dx, lat + dy)` as `(xmin, ymin, xmax, ymax)`. -/
theorem from_point_eq (lat lon dkm : ℝ) :
    Overpass.BoundingBox.from_point lat lon dkm =
      { xmin := lon - dkm * 1000 / (Overpass.wgs84_earth_radius lat * Real.cos lat)
        ymin := lat - dkm * 1000 / Overpass.wgs84_earth_radius lat
        xmax := lon + dkm * 1000 / (Overpass.wgs84_earth_radius lat * Real.cos lat)
        ymax := lat + dkm * 1000 / Overpass.wgs84_earth_radius lat } := by
  simp only [Overpass.BoundingBox.from_point, Overpass.BoundingBox.mk.injEq]
  norm_num

/-- C9 (confirmed): `wgs84_earth_radius` is an even function of latitude:
the sine enters only squared, so negating the latitude leaves the radius
unchanged. -/
theorem wgs84_earth_radius_even (lat : ℝ) :
    Overpass.wgs84_earth_radius (-lat) = Overpass.wgs84_earth_radius lat := by
  simp only [Overpass.wgs84_earth_radius, Real.cos_neg, Real.sin_neg]
  congr 1
  ring

/-- C8 (confirmed): for every latitude strictly between `-π/2` and `π/2`
(the poles excluded, in radians), the earth radius lies between the polar
and equatorial semi-axes: `6356752.3 ≤ R ≤ 6378137` (in the real-valued
model every such value is in particular finite). -/
theorem wgs84_earth_radius_bounds (lat : ℝ)
    (h1 : -(Real.pi / 2) < lat) (h2 : lat < Real.pi / 2) :
    6356752.3 ≤ Overpass.wgs84_earth_radius lat
  ∧ Overpass.wgs84_earth_radius lat ≤ 6378137 := by
  have hc : 0 < Real.cos lat := Real.cos_pos_of_mem_Ioo ⟨h1, h2⟩
  have hkey : Overpass.wgs84_earth_radius lat =
      Real.sqrt (((6378137 : ℝ) * 6378137 * Real.cos lat
          * ((6378137 : ℝ) * 6378137 * Real.cos lat)
        + (6356752.3 : ℝ) * 6356752.3 * Real.sin lat
          * ((6356752.3 : ℝ) * 6356752.3 * Real.sin lat))
        / ((6378137 : ℝ) * Real.cos lat * ((6378137 : ℝ) * Real.cos lat)
        + (6356752.3 : ℝ) * Real.sin lat * ((6356752.3 : ℝ) * Real.sin lat))) := by
    simp only [Overpass.wgs84_earth_radius, Overpass.WGS84A, Overpass.WGS84B]
    norm_num
  set c := Real.cos lat with hcdef
  set s := Real.sin lat with hsdef
  have hd : 0 < (6378137 : ℝ) * c * ((6378137 : ℝ) * c)
      + (6356752.3 : ℝ) * s * ((6356752.3 : ℝ) * s) := by
    have hpc : 0 < (6378137 : ℝ) * c := by positivity
    nlinarith [mul_self_nonneg ((6356752.3 : ℝ) * s)]
  constructor
  · have hle : (6356752.3 : ℝ) ^ 2 ≤
        ((6378137 : ℝ) * 6378137 * c * ((6378137 : ℝ) * 6378137 * c)
          + (6356752.3 : ℝ) * 6356752.3 * s * ((6356752.3 : ℝ) * 6356752.3 * s))
        / ((6378137 : ℝ) * c * ((6378137 : ℝ) * c)
          + (6356752.3 : ℝ) * s * ((6356752.3 : ℝ) * s)) := by
      rw [le_div_iff₀ hd]
      nlinarith [mul_self_nonneg ((6378137 : ℝ) * c), mul_self_nonneg ((6356752.3 : ℝ) * s)]
    calc (6356752.3 : ℝ) = Real.sqrt ((6356752.3 : ℝ) ^ 2) := (Real.sqrt_sq (by norm_num)).symm
      _ ≤ _ := by rw [hkey]; exact Real.sqrt_le_sqrt hle
  · have hle : ((6378137 : ℝ) * 6378137 * c * ((6378137 : ℝ) * 6378137 * c)
          + (6356752.3 : ℝ) * 6356752.3 * s * ((6356752.3 : ℝ) * 6356752.3 * s))
        / ((6378137 : ℝ) * c * ((6378137 : ℝ) * c)
          + (6356752.3 : ℝ) * s * ((6356752.3 : ℝ) * s)) ≤ (6378137 : ℝ) ^ 2 := by
      rw [div_le_iff₀ hd]
      nlinarith [mul_self_nonneg ((6356752.3 : ℝ) * s)]
    calc Overpass.wgs84_earth_radius lat ≤ Real.sqrt ((6378137 : ℝ) ^ 2) := by
          rw [hkey]; exact Real.sqrt_le_sqrt hle
      _ = 6378137 := Real.sqrt_sq (by norm_num)

/-- C8 witness: latitude `0` lies strictly between `-π/2` and `π/2`, and the
bounds hold there. -/
theorem wgs84_earth_radius_bounds_witness :
    (-(Real.pi / 2) < (0 : ℝ)) ∧ ((0 : ℝ) < Real.pi / 2)
  ∧ 6356752.3 ≤ Overpass.wgs84_earth_radius 0
  ∧ Overpass.wgs84_earth_radius 0 ≤ 6378137 := by
  have h1 : -(Real.pi / 2) < (0 : ℝ) := by
    have := Real.pi_pos
    linarith
  have h2 : (0 : ℝ) < Real.pi / 2 := by
    have := Real.pi_pos
    linarith
  exact ⟨h1, h2, (wgs84_earth_radius_bounds 0 h1 h2).1, (wgs84_earth_radius_bounds 0 h1 h2).2⟩

/-- C6 (counterexample): at latitude exactly `π/2` the source's
`from_point` silently returns an ordinary (in the real model, finite and
zero-width) box rather than rejecting or surfacing an error: `cos (π/2) = 0`
makes `prad = 0`, and the division-by-zero convention of the real model
gives `dx = 0`, so `xmin = lon = xmax` — here `xmin = xmax = 0`. No error
path exists: the function's result type is a plain `BoundingBox`. -/
theorem from_point_pole_silent_degenerate :
    (Overpass.BoundingBox.from_point (Real.pi / 2) 0 1).xmin = 0
  ∧ (Overpass.BoundingBox.from_point (Real.pi / 2) 0 1).xmax = 0 := by
  constructor <;>
    simp [Overpass.BoundingBox.from_point, Real.cos_pi_div_two]

/-- C6 (amended): `from_point` contains no near-polar check and always
returns a plain box. In the real-valued model, at latitude `π/2` it silently
returns the degenerate box with `xmin = lon = xmax` (and in actual `f64`
arithmetic, `cos` of any double near `π/2` is a nonzero value, so the
longitudinal half-width is huge but finite) — never a non-finite or
explicitly-rejected result. -/
theorem from_point_no_polar_guard (lon dkm : ℝ) :
    (Overpass.BoundingBox.from_point (Real.pi / 2) lon dkm).xmin = lon
  ∧ (Overpass.BoundingBox.from_point (Real.pi / 2) lon dkm).xmax = lon := by
  constructor <;>
    simp [Overpass.BoundingBox.from_point, Real.cos_pi_div_two]

/-- C7 (confirmed): the numeric coercion contract of the decoders. A field
decoded through `deserialize_number_from_string` accepts a JSON number as-is
and a string that parses as a decimal number; `null` or a non-numeric string
is an error. Plugged into the `GeocodeResponse` decoder (at the `lat` and
`importance` positions of a representative response object): a coercible
value decodes to exactly the coerced number and a non-coercible one fails
the whole decode; decoding with `lat` the string `"42.3554334"` and
`importance` the number `0.5` succeeds and yields the values `42.3554334`,
`0.5` (and `lon`, sent as a string, yields `-71.060511`). The same holds for
a field of an embedded `BoundingBox`. -/
theorem geocode_decode_numeric_coercion :
    (∀ d, deserialize_number_from_string (Json.num d) = Except.ok d)
  ∧ (∀ s d, parseDecimal s = some d →
      deserialize_number_from_string (Json.str s) = Except.ok d)
  ∧ (∀ s, parseDecimal s = none →
      deserialize_number_from_string (Json.str s)
        = Except.error "failed to parse string as a number")
  ∧ (deserialize_number_from_string Json.null
      = Except.error "expected a number or a numeric string")
  ∧ (∀ latj impj latd impd,
      deserialize_number_from_string latj = Except.ok latd →
      deserialize_number_from_string impj = Except.ok impd →
      ∃ r, Nominatim.decodeGeocodeResponse (exampleGeocodeJson latj impj) = Except.ok r
        ∧ r.lat = latd ∧ r.importance = impd)
  ∧ (∀ latj impj e, deserialize_number_from_string latj = Except.error e →
      ∃ e2, Nominatim.decodeGeocodeResponse (exampleGeocodeJson latj impj)
        = Except.error e2)
  ∧ (∃ r, Nominatim.decodeGeocodeResponse
        (exampleGeocodeJson (Json.str "42.3554334") (Json.num ⟨5, 1⟩)) = Except.ok r
      ∧ r.lat.toRat = 42.3554334 ∧ r.importance.toRat = 0.5 ∧ r.lon.toRat = -71.060511)
  ∧ (∀ j d, deserialize_number_from_string j = Except.ok d →
      ∃ b, Overpass.decodeBoundingBox (exampleBoundingBoxJson j) = Except.ok b
        ∧ b.xmin = d)
  ∧ (∀ j e, deserialize_number_from_string j = Except.error e →
      ∃ e2, Overpass.decodeBoundingBox (exampleBoundingBoxJson j) = Except.error e2) := by
  have hnum : ∀ d, deserialize_number_from_string (Json.num d) = Except.ok d :=
    fun d => rfl
  refine ⟨hnum, ?_, ?_, rfl, ?_, ?_, ?_, ?_, ?_⟩
  · intro s d h
    simp [deserialize_number_from_string, h]
  · intro s h
    simp [deserialize_number_from_string, h]
  · intro latj impj latd impd hlat himp
    have hd0 : deserialize_number_from_string (Json.str "-71.060511")
        = Except.ok ⟨-71060511, 6⟩ := rfl
    have hbb : Overpass.decodeBoundingBox (Json.arr [Json.str "42.2279112",
        Json.str "42.3969775", Json.str "-71.191249", Json.str "-71.0298595"])
        = Except.ok ⟨⟨422279112, 7⟩, ⟨423969775, 7⟩, ⟨-71191249, 6⟩, ⟨-710298595, 7⟩⟩ := rfl
    refine ⟨⟨132956033, some "Data ODbL", "relation", 2315704, latd, ⟨-71060511, 6⟩,
      "boundary", "administrative", 16, impd, "city", "Boston",
      "Boston, Suffolk County, Massachusetts, United States",
      ⟨⟨422279112, 7⟩, ⟨423969775, 7⟩, ⟨-71191249, 6⟩, ⟨-710298595, 7⟩⟩⟩, ?_, rfl, rfl⟩
    simp [Nominatim.decodeGeocodeResponse, exampleGeocodeJson,
      uintField, strField, optStrField, numField,
      List.lookup, hlat, himp, hd0, hbb, bind, Except.bind]
  · intro latj impj e hlat
    refine ⟨e, ?_⟩
    simp [Nominatim.decodeGeocodeResponse, exampleGeocodeJson,
      uintField, strField, optStrField, numField,
      List.lookup, hlat, bind, Except.bind]
  · refine ⟨⟨132956033, some "Data ODbL", "relation", 2315704, ⟨423554334, 7⟩,
      ⟨-71060511, 6⟩, "boundary", "administrative", 16, ⟨5, 1⟩, "city", "Boston",
      "Boston, Suffolk County, Massachusetts, United States",
      ⟨⟨422279112, 7⟩, ⟨423969775, 7⟩, ⟨-71191249, 6⟩, ⟨-710298595, 7⟩⟩⟩, rfl, ?_, ?_, ?_⟩
      <;> norm_num [Decimal.toRat]
  · intro j d h
    refine ⟨⟨d, ⟨0, 0⟩, ⟨1, 0⟩, ⟨2, 0⟩⟩, ?_, rfl⟩
    simp [Overpass.decodeBoundingBox, exampleBoundingBoxJson, numField,
      List.lookup, h, hnum, bind, Except.bind]
  · intro j e h
    refine ⟨e, ?_⟩
    simp [Overpass.decodeBoundingBox, exampleBoundingBoxJson, numField,
      List.lookup, h, bind, Except.bind]

/-- C7 witness: the string `"42.3554334"` parses to the decimal
`423554334 / 10^7`, both coercion routes succeed on the concrete inputs,
the representative object with those two values decodes, and with `lat`
replaced by JSON `null` the whole decode fails. -/
theorem geocode_decode_numeric_coercion_witness :
    parseDecimal "42.3554334" = some ⟨423554334, 7⟩
  ∧ deserialize_number_from_string (Json.str "42.3554334") = Except.ok ⟨423554334, 7⟩
  ∧ deserialize_number_from_string (Json.num ⟨5, 1⟩) = Except.ok ⟨5, 1⟩
  ∧ (∃ r, Nominatim.decodeGeocodeResponse
        (exampleGeocodeJson (Json.str "42.3554334") (Json.num ⟨5, 1⟩)) = Except.ok r
      ∧ r.lat = ⟨423554334, 7⟩ ∧ r.importance = ⟨5, 1⟩)
  ∧ (∃ e2, Nominatim.decodeGeocodeResponse
        (exampleGeocodeJson Json.null (Json.num ⟨5, 1⟩)) = Except.error e2) := by
  refine ⟨by decide, ?_, ?_, ?_, ?_⟩
  · exact geocode_decode_numeric_coercion.2.1 "42.3554334" ⟨423554334, 7⟩ (by decide)
  · exact geocode_decode_numeric_coercion.1 ⟨5, 1⟩
  · exact geocode_decode_numeric_coercion.2.2.2.2.1 (Json.str "42.3554334")
      (Json.num ⟨5, 1⟩) ⟨423554334, 7⟩ ⟨5, 1⟩
      (geocode_decode_numeric_coercion.2.1 "42.3554334" ⟨423554334, 7⟩ (by decide))
      (geocode_decode_numeric_coercion.1 ⟨5, 1⟩)
  · exact geocode_decode_numeric_coercion.2.2.2.2.2.1 Json.null (Json.num ⟨5, 1⟩)
      "expected a number or a numeric string" geocode_decode_numeric_coercion.2.2.2.1

end OsmRs
